import Mathlib

/-
  Verification of the `aws_quick_start` data-access layer.

  The repository is a thin wrapper (`src/dynamoDB/users.py`) over the
  DynamoDB service: every method of the `Users` class performs one remote
  call and translates errors.  We embed each method as a pure function that
  receives the outcome of its remote call(s) as an explicit argument (the
  "oracle"), and returns the method's result (`Except` models
  raise-vs-return), the new object state, the diagnostic output produced
  (logger.error calls and print calls), and the remote calls issued.

  The remote DynamoDB service itself is not part of the repository; where a
  claim needs its behaviour (put_item / query / update_item semantics) we
  model it from the specification's data-model section, with doc comments
  marking those definitions.
-/

namespace AwsQuickStart

/-- Attribute maps (DynamoDB items, expression-attribute-value maps, raw
responses) are association lists from attribute name to string value. -/
abbrev AttrMap := List (String × String)

/-- The code+message pair carried by a botocore `ClientError` response. -/
structure ErrorInfo where
  code : String
  message : String
deriving Repr, DecidableEq

/-- An exception as seen by the Python handlers: either a provider-reported
`ClientError`, or any other local exception (AttributeError,
ParamValidationError, KeyError, ...). -/
inductive DbError where
  | clientError (info : ErrorInfo)
  | localError (message : String)
deriving Repr, DecidableEq

/-- Rendering of `traceback.format_exc()` for an in-flight exception. -/
def DbError.tracebackText : DbError → String
  | .clientError i =>
      "botocore.exceptions.ClientError: An error occurred (" ++ i.code
        ++ "): " ++ i.message
  | .localError m => m

/-- Diagnostic output: a `logger.error` record (code and message, as in the
format strings of `users.py`) or a `print` to stdout. -/
inductive Output where
  | logError (code : String) (message : String)
  | printOut (message : String)
deriving Repr, DecidableEq

/-- The request body of `dyn_resource.create_table` in `Users.create_table`:
table name, key schema (attribute name, key type), attribute definitions
(attribute name, attribute type) and billing mode. -/
structure CreateTableRequest where
  tableName : String
  keySchema : List (String × String)
  attributeDefinitions : List (String × String)
  billingMode : String
deriving Repr, DecidableEq

/-- A remote call issued by a `Users` method, with the request data the
Python code passes to boto3. -/
inductive RemoteCall where
  | loadTable (name : String)
  | listTablesCall
  | createTableCall (req : CreateTableRequest)
  | waitUntilExists (name : String)
  | deleteTableCall (name : String)
  | putItem (tableName : String) (item : AttrMap)
  | queryCall (tableName : String) (indexName : Option String)
      (keyAttr : String) (keyValue : String)
  | updateItem (tableName : String) (key : AttrMap)
      (updateExpression : String) (expressionAttributeValues : AttrMap)
      (returnValues : String)
  | deleteItem (tableName : String) (key : AttrMap)
deriving Repr, DecidableEq

/-- The mutable state of a `Users` object: its `self.table` member, a handle
identified by table name (`None` after `delete_table`). -/
structure UsersState where
  table : Option String
deriving Repr, DecidableEq

/-- State right after `Users.__init__`, which binds `self.table` to the
handle `self.dyn_resource.Table('users')`. -/
def initialUsers : UsersState := ⟨some "users"⟩

/-- Result of running one method: what it returns or raises, the state of
the object afterwards, the diagnostics written, and the remote calls made. -/
structure MRes (α : Type) where
  result : Except DbError α
  state : UsersState
  output : List Output
  calls : List RemoteCall
deriving Repr

/-- A raw boto3 response dictionary (e.g. the value returned by
`put_item`), kept opaque as an attribute map. -/
abbrev RawResponse := AttrMap

/-- A boto3 `query` response; the code reads its `Items` entry. -/
structure QueryResponse where
  Items : List AttrMap
deriving Repr, DecidableEq

/-- A boto3 `update_item` response; the code reads its `Attributes` entry. -/
structure UpdateResponse where
  Attributes : AttrMap
deriving Repr, DecidableEq

/-- `Users.exists`: loads the table metadata; on success returns `True` and
rebinds `self.table`; a `ClientError` with code `ResourceNotFoundException`
yields `False`; any other `ClientError` is logged and re-raised; a
non-`ClientError` exception propagates uncaught. -/
def Users.exists (s : UsersState) (load : Except DbError Unit) : MRes Bool :=
  match load with
  | .ok _ => ⟨.ok true, ⟨some "users"⟩, [], [.loadTable "users"]⟩
  | .error (.clientError i) =>
      if i.code = "ResourceNotFoundException" then
        ⟨.ok false, s, [], [.loadTable "users"]⟩
      else
        ⟨.error (.clientError i), s, [.logError i.code i.message],
          [.loadTable "users"]⟩
  | .error (.localError m) =>
      ⟨.error (.localError m), s, [], [.loadTable "users"]⟩

/-- `Users.list_tables`: enumerates the account's tables, printing each
name; a `ClientError` is logged and re-raised. -/
def Users.list_tables (s : UsersState) (remote : Except DbError (List String)) :
    MRes (List String) :=
  match remote with
  | .ok ts => ⟨.ok ts, s, ts.map Output.printOut, [.listTablesCall]⟩
  | .error (.clientError i) =>
      ⟨.error (.clientError i), s, [.logError i.code i.message],
        [.listTablesCall]⟩
  | .error (.localError m) =>
      ⟨.error (.localError m), s, [], [.listTablesCall]⟩

/-- The create-table request built by `Users.create_table`: partition key
`user_id` (string), sort key `full_name` (string), on-demand billing. -/
def createTableRequest (table_name : String) : CreateTableRequest :=
  { tableName := table_name
    keySchema := [("user_id", "HASH"), ("full_name", "RANGE")]
    attributeDefinitions := [("user_id", "S"), ("full_name", "S")]
    billingMode := "PAY_PER_REQUEST" }

/-- `Users.create_table`: issues the create request, assigns `self.table`
to the new table, then waits until the table exists; a `ClientError` from
either step is logged and re-raised.  Note the assignment to `self.table`
happens before the wait, so a wait failure leaves the new reference bound. -/
def Users.create_table (s : UsersState) (table_name : String)
    (create : Except DbError Unit) (wait : Except DbError Unit) :
    MRes String :=
  match create with
  | .error (.clientError i) =>
      ⟨.error (.clientError i), s, [.logError i.code i.message],
        [.createTableCall (createTableRequest table_name)]⟩
  | .error (.localError m) =>
      ⟨.error (.localError m), s, [],
        [.createTableCall (createTableRequest table_name)]⟩
  | .ok _ =>
      match wait with
      | .ok _ =>
          ⟨.ok table_name, ⟨some table_name⟩, [],
            [.createTableCall (createTableRequest table_name),
              .waitUntilExists table_name]⟩
      | .error (.clientError i) =>
          ⟨.error (.clientError i), ⟨some table_name⟩,
            [.logError i.code i.message],
            [.createTableCall (createTableRequest table_name),
              .waitUntilExists table_name]⟩
      | .error (.localError m) =>
          ⟨.error (.localError m), ⟨some table_name⟩, [],
            [.createTableCall (createTableRequest table_name),
              .waitUntilExists table_name]⟩

/-- Message of the AttributeError raised when a method dereferences
`self.table` while it is `None`. -/
def noTableMessage (attr : String) : String :=
  "AttributeError: NoneType object has no attribute " ++ attr

/-- `Users.delete_table`: deletes the bound table and then clears
`self.table`; a `ClientError` is logged and re-raised with `self.table`
unchanged.  With no table bound, the local AttributeError propagates. -/
def Users.delete_table (s : UsersState) (remote : Except DbError Unit) :
    MRes Unit :=
  match s.table with
  | none => ⟨.error (.localError (noTableMessage "delete")), s, [], []⟩
  | some t =>
      match remote with
      | .ok _ => ⟨.ok (), ⟨none⟩, [], [.deleteTableCall t]⟩
      | .error (.clientError i) =>
          ⟨.error (.clientError i), s, [.logError i.code i.message],
            [.deleteTableCall t]⟩
      | .error (.localError m) =>
          ⟨.error (.localError m), s, [], [.deleteTableCall t]⟩

/-- The item written by `Users.add_user`: exactly the two key attributes. -/
def addItem (user_id full_name : String) : AttrMap :=
  [("user_id", user_id), ("full_name", full_name)]

/-- `Users.add_user`: puts the two-attribute item; on success returns the
raw response; any exception at all is printed and swallowed into `None`. -/
def Users.add_user (s : UsersState) (user_id full_name : String)
    (remote : Except DbError RawResponse) : MRes (Option RawResponse) :=
  match s.table with
  | none =>
      ⟨.ok none, s,
        [.printOut ("ERROR: " ++ noTableMessage "put_item")], []⟩
  | some t =>
      match remote with
      | .ok r =>
          ⟨.ok (some r), s, [], [.putItem t (addItem user_id full_name)]⟩
      | .error e =>
          ⟨.ok none, s, [.printOut ("ERROR: " ++ e.tracebackText)],
            [.putItem t (addItem user_id full_name)]⟩

/-- `Users.query_by_user_id`: queries the table with an equality condition
on the partition key only; returns the `Items` of the response; any
exception is printed and swallowed into `None`. -/
def Users.query_by_user_id (s : UsersState) (user_id : String)
    (remote : Except DbError QueryResponse) : MRes (Option (List AttrMap)) :=
  match s.table with
  | none =>
      ⟨.ok none, s, [.printOut ("ERROR: " ++ noTableMessage "query")], []⟩
  | some t =>
      match remote with
      | .ok r =>
          ⟨.ok (some r.Items), s, [],
            [.queryCall t none "user_id" user_id]⟩
      | .error e =>
          ⟨.ok none, s, [.printOut ("ERROR: " ++ e.tracebackText)],
            [.queryCall t none "user_id" user_id]⟩

/-- `Users.query_by_user_name`: queries the index `name-index` with an
equality condition on the attribute `name`; returns the `Items` of the
response; any exception is printed and swallowed into `None`. -/
def Users.query_by_user_name (s : UsersState) (nm : String)
    (remote : Except DbError QueryResponse) : MRes (Option (List AttrMap)) :=
  match s.table with
  | none =>
      ⟨.ok none, s, [.printOut ("ERROR: " ++ noTableMessage "query")], []⟩
  | some t =>
      match remote with
      | .ok r =>
          ⟨.ok (some r.Items), s, [],
            [.queryCall t (some "name-index") "name" nm]⟩
      | .error e =>
          ⟨.ok none, s, [.printOut ("ERROR: " ++ e.tracebackText)],
            [.queryCall t (some "name-index") "name" nm]⟩

/-- The `UpdateExpression` string built by `Users.update_user` from the
keyword arguments (in insertion order, as a Python dict preserves it). -/
def update_expression_string (kwargs : AttrMap) : String :=
  "set " ++ String.intercalate ", "
    (kwargs.map fun kv => kv.1 ++ "=:" ++ kv.1)

/-- The `ExpressionAttributeValues` map built by `Users.update_user`. -/
def expression_attributes (kwargs : AttrMap) : AttrMap :=
  kwargs.map fun kv => (":" ++ kv.1, kv.2)

/-- `Users.update_user`: builds the dynamic `set` expression and value map,
issues `update_item` with the full composite key and
`ReturnValues="UPDATED_NEW"`, and returns the response's `Attributes`; any
exception is printed and swallowed into `None`. -/
def Users.update_user (s : UsersState) (user_id full_name : String)
    (kwargs : AttrMap) (remote : Except DbError UpdateResponse) :
    MRes (Option AttrMap) :=
  match s.table with
  | none =>
      ⟨.ok none, s, [.printOut (noTableMessage "update_item")], []⟩
  | some t =>
      match remote with
      | .ok r =>
          ⟨.ok (some r.Attributes), s, [],
            [.updateItem t [("user_id", user_id), ("full_name", full_name)]
              (update_expression_string kwargs)
              (expression_attributes kwargs) "UPDATED_NEW"]⟩
      | .error e =>
          ⟨.ok none, s, [.printOut e.tracebackText],
            [.updateItem t [("user_id", user_id), ("full_name", full_name)]
              (update_expression_string kwargs)
              (expression_attributes kwargs) "UPDATED_NEW"]⟩

/-- `Users.delete_user_by_id`: deletes by the full composite key; returns
`True` on success; a `ClientError` is printed and converted to `False`.
Only `ClientError` is caught, so any other exception propagates — in
particular the AttributeError raised when no table is bound. -/
def Users.delete_user_by_id (s : UsersState) (user_id full_name : String)
    (remote : Except DbError Unit) : MRes Bool :=
  match s.table with
  | none =>
      ⟨.error (.localError (noTableMessage "delete_item")), s, [], []⟩
  | some t =>
      match remote with
      | .ok _ =>
          ⟨.ok true, s, [],
            [.deleteItem t [("user_id", user_id), ("full_name", full_name)]]⟩
      | .error (.clientError i) =>
          ⟨.ok false, s,
            [.printOut ("Error: " ++ (DbError.clientError i).tracebackText)],
            [.deleteItem t [("user_id", user_id), ("full_name", full_name)]]⟩
      | .error (.localError m) =>
          ⟨.error (.localError m), s, [],
            [.deleteItem t [("user_id", user_id), ("full_name", full_name)]]⟩

/-- Lookup of an attribute in an item (first binding wins, as in a dict). -/
def getAttr : AttrMap → String → Option String
  | [], _ => none
  | kv :: rest, k => if kv.1 = k then some kv.2 else getAttr rest k

/-- Overwrite-or-append of one attribute in an item. -/
def setAttr : AttrMap → String → String → AttrMap
  | [], k, v => [(k, v)]
  | kv :: rest, k, v =>
      if kv.1 = k then (k, v) :: rest else kv :: setAttr rest k v

/-- Two items agree on the full composite primary key. -/
def sameKey (a b : AttrMap) : Bool :=
  getAttr a "user_id" == getAttr b "user_id"
    && getAttr a "full_name" == getAttr b "full_name"

/-- Modelled from the spec: the remote table's contents, a bag of items in
which the pair (`user_id`, `full_name`) uniquely identifies a record. -/
abbrev TableData := List AttrMap

/-- Modelled from the spec: `put_item` upsert semantics — the item replaces
any record sharing its composite key and is stored as given, with no
existence check. -/
def putItemModel (td : TableData) (item : AttrMap) : TableData :=
  td.filter (fun it => !sameKey it item) ++ [item]

/-- Modelled from the spec: `query` with an equality condition on the
partition key returns every record whose `user_id` equals the given id. -/
def queryByPartition (td : TableData) (user_id : String) : List AttrMap :=
  td.filter (fun it => getAttr it "user_id" == some user_id)

/-- The assignment pairs (attribute name, value placeholder) underlying the
`set` expression of `Users.update_user`; their rendering, joined with
commas after `set `, is exactly `update_expression_string`. -/
def assignPairs (kwargs : AttrMap) : List (String × String) :=
  kwargs.map fun kv => (kv.1, ":" ++ kv.1)

/-- Resolution of each assignment's placeholder against the
`ExpressionAttributeValues` map; fails if a placeholder is unbound. -/
def resolveAssignments : List (String × String) → AttrMap → Option AttrMap
  | [], _ => some []
  | kp :: rest, vals =>
      match getAttr vals kp.2, resolveAssignments rest vals with
      | some v, some rs => some ((kp.1, v) :: rs)
      | _, _ => none

/-- The item a `set` update starts from: the stored record with the given
composite key, or a fresh record holding just the key attributes. -/
def baseItem (td : TableData) (user_id full_name : String) : AttrMap :=
  (td.find? fun it =>
      getAttr it "user_id" == some user_id
        && getAttr it "full_name" == some full_name).getD
    (addItem user_id full_name)

/-- Application of resolved `set` assignments to an item, left to right. -/
def applyAssigns (item : AttrMap) (resolved : AttrMap) : AttrMap :=
  resolved.foldl (fun it kv => setAttr it kv.1 kv.2) item

/-- Modelled from the spec: `update_item` with a `set` expression and
`ReturnValues="UPDATED_NEW"` — rejects an expression with no assignments or
an unbound placeholder (a ValidationException), otherwise applies every
assignment to the record with the given key (creating it if absent), stores
the result, and responds with exactly the assigned attributes and their new
values. -/
def serviceUpdateItem (td : TableData) (user_id full_name : String)
    (assigns : List (String × String)) (vals : AttrMap) :
    Option (TableData × AttrMap) :=
  if assigns.isEmpty then none
  else
    match resolveAssignments assigns vals with
    | none => none
    | some resolved =>
        let item := applyAssigns (baseItem td user_id full_name) resolved
        some (putItemModel td item, resolved)

/-! Helper lemmas about the attribute-map primitives and the service
model.  These are shared by several claim theorems. -/

theorem String.colon_append_inj {a k : String}
    (h : ":" ++ a = ":" ++ k) : a = k := by
  have hd := congrArg String.data h
  simp [String.data_append] at hd
  exact String.ext hd

theorem getAttr_cons_self (k v : String) (rest : AttrMap) :
    getAttr ((k, v) :: rest) k = some v := by
  simp [getAttr]

theorem getAttr_cons_ne (k k' v : String) (rest : AttrMap) (h : k ≠ k') :
    getAttr ((k, v) :: rest) k' = getAttr rest k' := by
  simp [getAttr, h]

theorem getAttr_setAttr_self (it : AttrMap) (k v : String) :
    getAttr (setAttr it k v) k = some v := by
  induction it with
  | nil => simp [setAttr, getAttr]
  | cons kv rest ih =>
      by_cases h : kv.1 = k
      · simp [setAttr, h, getAttr]
      · simp [setAttr, h, getAttr, ih]

theorem getAttr_setAttr_ne (it : AttrMap) (k v k' : String) (h : k ≠ k') :
    getAttr (setAttr it k v) k' = getAttr it k' := by
  induction it with
  | nil => simp [setAttr, getAttr, h]
  | cons kv rest ih =>
      by_cases hk : kv.1 = k
      · have hk1 : kv.1 ≠ k' := by rw [hk]; exact h
        simp [setAttr, hk, getAttr, h, hk1]
      · by_cases hk' : kv.1 = k'
        · simp [setAttr, hk, getAttr, hk', Ne.symm h]
        · simp [setAttr, hk, getAttr, hk', ih]

theorem applyAssigns_nil (it : AttrMap) : applyAssigns it [] = it := rfl

theorem applyAssigns_cons (it : AttrMap) (k v : String) (rest : AttrMap) :
    applyAssigns it ((k, v) :: rest) = applyAssigns (setAttr it k v) rest :=
  rfl

theorem getAttr_applyAssigns_not_mem (resolved : AttrMap) :
    ∀ (it : AttrMap) (k : String), k ∉ resolved.map Prod.fst →
      getAttr (applyAssigns it resolved) k = getAttr it k := by
  induction resolved with
  | nil => intro it k _; rfl
  | cons kv rest ih =>
      intro it k h
      simp only [List.map_cons, List.mem_cons] at h
      push_neg at h
      rw [applyAssigns_cons]
      rw [ih (setAttr it kv.1 kv.2) k h.2]
      exact getAttr_setAttr_ne it kv.1 kv.2 k fun hk => h.1 hk.symm

theorem getAttr_applyAssigns_mem (resolved : AttrMap) :
    ∀ (it : AttrMap) (k v : String), (resolved.map Prod.fst).Nodup →
      (k, v) ∈ resolved → getAttr (applyAssigns it resolved) k = some v := by
  induction resolved with
  | nil => intro it k v _ hmem; cases hmem
  | cons kv rest ih =>
      intro it k v hnd hmem
      simp only [List.map_cons, List.nodup_cons] at hnd
      rcases List.mem_cons.1 hmem with heq | htail
      · cases heq
        rw [applyAssigns_cons]
        rw [getAttr_applyAssigns_not_mem rest (setAttr it k v) k hnd.1]
        exact getAttr_setAttr_self it k v
      · rw [applyAssigns_cons]
        exact ih (setAttr it kv.1 kv.2) k v hnd.2 htail

theorem resolveAssignments_cons_ne (assigns : List (String × String))
    (key v : String) (vals : AttrMap)
    (h : ∀ kp ∈ assigns, kp.2 ≠ key) :
    resolveAssignments assigns ((key, v) :: vals)
      = resolveAssignments assigns vals := by
  induction assigns with
  | nil => rfl
  | cons kp rest ih =>
      have hk : key ≠ kp.2 := fun hk => h kp (List.mem_cons_self kp rest) hk.symm
      simp only [resolveAssignments]
      rw [getAttr_cons_ne key kp.2 v vals hk]
      rw [ih fun q hq => h q (List.mem_cons_of_mem kp hq)]

theorem resolve_assignPairs (kwargs : AttrMap)
    (hnd : (kwargs.map Prod.fst).Nodup) :
    resolveAssignments (assignPairs kwargs) (expression_attributes kwargs)
      = some kwargs := by
  induction kwargs with
  | nil => rfl
  | cons kv rest ih =>
      simp only [List.map_cons, List.nodup_cons] at hnd
      have hne : ∀ kp ∈ assignPairs rest, kp.2 ≠ ":" ++ kv.1 := by
        intro kp hkp hcontra
        simp only [assignPairs, List.mem_map] at hkp
        obtain ⟨q, hq, hqe⟩ := hkp
        have hq1 : q.1 = kv.1 := by
          apply String.colon_append_inj
          rw [← hcontra, ← hqe]
        exact hnd.1 (hq1 ▸ List.mem_map_of_mem Prod.fst hq)
      show resolveAssignments ((kv.1, ":" ++ kv.1) :: assignPairs rest)
        ((":" ++ kv.1, kv.2) :: expression_attributes rest) = some (kv :: rest)
      simp only [resolveAssignments]
      rw [getAttr_cons_self]
      rw [resolveAssignments_cons_ne (assignPairs rest)
        (":" ++ kv.1) kv.2 (expression_attributes rest) hne]
      rw [ih hnd.2]

theorem getAttr_addItem_user_id (u f : String) :
    getAttr (addItem u f) "user_id" = some u := rfl

theorem getAttr_addItem_full_name (u f : String) :
    getAttr (addItem u f) "full_name" = some f := by
  simp [addItem, getAttr]

theorem queryByPartition_putItemModel (td : TableData) (u f : String)
    (h : ∀ it ∈ td, getAttr it "user_id" ≠ some u) :
    queryByPartition (putItemModel td (addItem u f)) u = [addItem u f] := by
  rw [putItemModel, queryByPartition, List.filter_append]
  have h1 : (td.filter fun it => !sameKey it (addItem u f)).filter
      (fun it => getAttr it "user_id" == some u) = [] := by
    rw [List.filter_eq_nil_iff]
    intro it hit
    have := List.mem_filter.1 hit
    simpa using h it this.1
  rw [h1]
  simp [getAttr_addItem_user_id]

/-! Claim theorems. -/

/-- C4: `exists` returns false exactly when the provider reports error code
`ResourceNotFoundException`; it returns true and rebinds the internal table
reference on success; any other provider error is logged (code and message)
and re-raised; and the internal table reference is mutated only on the
success path — it is unchanged on both the not-found and the re-raise
paths. -/
theorem C4_exists_contract (s : UsersState) (load : Except DbError Unit) :
    ((Users.exists s load).result = .ok false
        ↔ ∃ i, load = .error (.clientError i)
            ∧ i.code = "ResourceNotFoundException")
    ∧ (load = .ok () →
        (Users.exists s load).result = .ok true
          ∧ (Users.exists s load).state.table = some "users")
    ∧ (∀ i, load = .error (.clientError i) →
        i.code ≠ "ResourceNotFoundException" →
          (Users.exists s load).result = .error (.clientError i)
            ∧ (Users.exists s load).output = [.logError i.code i.message])
    ∧ ((Users.exists s load).result ≠ .ok true →
        (Users.exists s load).state = s) := by
  rcases load with e | u
  case ok =>
    cases u
    exact ⟨by simp [Users.exists], fun _ => ⟨rfl, rfl⟩,
      fun i hi => by simp at hi, fun h => absurd rfl h⟩
  rcases e with i | m
  · by_cases hc : i.code = "ResourceNotFoundException"
    · refine ⟨?_, ?_, ?_, ?_⟩
      · constructor
        · intro _; exact ⟨i, rfl, hc⟩
        · intro _; simp [Users.exists, hc]
      · intro h; simp at h
      · intro i' hi' hne
        injection hi' with h1
        injection h1 with h2
        exact absurd (h2 ▸ hc) hne
      · intro _; simp [Users.exists, hc]
    · refine ⟨?_, ?_, ?_, ?_⟩
      · constructor
        · intro h; simp [Users.exists, hc] at h
        · rintro ⟨i', hi', hci'⟩
          injection hi' with h1
          injection h1 with h2
          exact absurd (h2 ▸ hci') hc
      · intro h; simp at h
      · intro i' hi' _
        injection hi' with h1
        injection h1 with h2
        subst h2
        exact ⟨by simp [Users.exists, hc], by simp [Users.exists, hc]⟩
      · intro _; simp [Users.exists, hc]
  · refine ⟨?_, ?_, ?_, ?_⟩
    · constructor
      · intro h; simp [Users.exists] at h
      · rintro ⟨i', hi', _⟩; simp at hi'
    · intro h; simp at h
    · intro i' hi' _; simp at hi'
    · intro _; simp [Users.exists]

/-- C4 witness: at a concrete provider error with a non-not-found code, the
theorem yields the logged re-raise. -/
theorem C4_exists_contract_witness :
    (Users.exists initialUsers
        (.error (.clientError ⟨"AccessDeniedException", "denied"⟩))).result
      = .error (.clientError ⟨"AccessDeniedException", "denied"⟩)
    ∧ (Users.exists initialUsers
        (.error (.clientError ⟨"AccessDeniedException", "denied"⟩))).output
      = [.logError "AccessDeniedException" "denied"] :=
  (C4_exists_contract initialUsers
      (.error (.clientError ⟨"AccessDeniedException", "denied"⟩))).2.2.1
    ⟨"AccessDeniedException", "denied"⟩ rfl (by decide)

/-- C5: `create_table` requests a table with partition key `user_id`
(string type), sort key `full_name` (string type) and PAY_PER_REQUEST
billing, waits for the table to exist before returning (its success result
requires the wait to have succeeded, and the wait call follows the create
call), sets the internal table reference to the newly created table and
returns that table; a provider error from either remote step is logged and
re-raised. -/
theorem C5_create_table_contract (s : UsersState) (nm : String)
    (create wait : Except DbError Unit) (i : ErrorInfo) :
    (createTableRequest nm).keySchema
        = [("user_id", "HASH"), ("full_name", "RANGE")]
    ∧ (createTableRequest nm).attributeDefinitions
        = [("user_id", "S"), ("full_name", "S")]
    ∧ (createTableRequest nm).billingMode = "PAY_PER_REQUEST"
    ∧ (create = .ok () → wait = .ok () →
        (Users.create_table s nm create wait).result = .ok nm
          ∧ (Users.create_table s nm create wait).state.table = some nm
          ∧ (Users.create_table s nm create wait).calls
              = [.createTableCall (createTableRequest nm),
                  .waitUntilExists nm])
    ∧ ((Users.create_table s nm create wait).result = .ok nm →
        wait = .ok ())
    ∧ (create = .error (.clientError i) →
        (Users.create_table s nm create wait).result = .error (.clientError i)
          ∧ (Users.create_table s nm create wait).output
              = [.logError i.code i.message])
    ∧ (create = .ok () → wait = .error (.clientError i) →
        (Users.create_table s nm create wait).result = .error (.clientError i)
          ∧ (Users.create_table s nm create wait).output
              = [.logError i.code i.message]) := by
  refine ⟨rfl, rfl, rfl, ?_, ?_, ?_, ?_⟩
  · rintro rfl rfl; exact ⟨rfl, rfl, rfl⟩
  · rcases create with e | u
    · rcases e with i' | m' <;> · intro h; simp [Users.create_table] at h
    · cases u
      rcases wait with e' | u'
      · rcases e' with i' | m' <;> · intro h; simp [Users.create_table] at h
      · cases u'; intro _; rfl
  · rintro rfl; exact ⟨rfl, rfl⟩
  · rintro rfl rfl; exact ⟨rfl, rfl⟩

/-- C5 witness: with both remote steps succeeding, `create_table` returns
the new table and binds the reference to it. -/
theorem C5_create_table_contract_witness :
    (Users.create_table initialUsers "users" (.ok ()) (.ok ())).result
        = .ok "users"
    ∧ (Users.create_table initialUsers "users" (.ok ()) (.ok ())).state.table
        = some "users"
    ∧ (Users.create_table initialUsers "users" (.ok ()) (.ok ())).calls
        = [.createTableCall (createTableRequest "users"),
            .waitUntilExists "users"] :=
  (C5_create_table_contract initialUsers "users" (.ok ()) (.ok ())
      ⟨"x", "y"⟩).2.2.2.1 rfl rfl

/-- C10: `delete_table` clears the internal table reference only when the
remote delete succeeds; a provider error is re-raised and leaves the
reference unchanged, still bound to the previous table. -/
theorem C10_delete_table_frame (s : UsersState) (t : String) (i : ErrorInfo)
    (m : String) (hs : s.table = some t) :
    (Users.delete_table s (.ok ())).state.table = none
    ∧ (Users.delete_table s (.error (.clientError i))).result
        = .error (.clientError i)
    ∧ (Users.delete_table s (.error (.clientError i))).state = s
    ∧ (Users.delete_table s (.error (.clientError i))).state.table = some t
    ∧ (Users.delete_table s (.error (.localError m))).state = s := by
  obtain ⟨tb⟩ := s
  simp only [UsersState.mk.injEq] at hs
  subst hs
  exact ⟨rfl, rfl, rfl, rfl, rfl⟩

/-- C10 witness: a concrete provider error on the initial state leaves the
reference bound to the previous table and re-raises. -/
theorem C10_delete_table_frame_witness :
    (Users.delete_table initialUsers
        (.error (.clientError ⟨"InternalServerError", "oops"⟩))).result
      = .error (.clientError ⟨"InternalServerError", "oops"⟩)
    ∧ (Users.delete_table initialUsers
        (.error (.clientError ⟨"InternalServerError", "oops"⟩))).state.table
      = some "users" :=
  ⟨(C10_delete_table_frame initialUsers "users"
      ⟨"InternalServerError", "oops"⟩ "m" rfl).2.1,
    (C10_delete_table_frame initialUsers "users"
      ⟨"InternalServerError", "oops"⟩ "m" rfl).2.2.2.1⟩

/-- C6: `update_user` called with an empty field mapping builds the
syntactically degenerate expression `set ` with no assignments and an empty
value map; the service model rejects such an expression, and the resulting
remote-call error is swallowed under the fail-soft policy: `update_user`
returns the null sentinel with the state unchanged. -/
theorem C6_update_user_empty (s : UsersState) (t u f : String) (e : DbError)
    (td : TableData) (hs : s.table = some t) :
    update_expression_string [] = "set "
    ∧ expression_attributes [] = []
    ∧ serviceUpdateItem td u f (assignPairs []) (expression_attributes [])
        = none
    ∧ (Users.update_user s u f [] (.error e)).result = .ok none
    ∧ (Users.update_user s u f [] (.error e)).state = s := by
  obtain ⟨tb⟩ := s
  simp only [UsersState.mk.injEq] at hs
  subst hs
  exact ⟨by decide, rfl, rfl, rfl, rfl⟩

/-- C6 witness: a concrete validation error from the degenerate update is
swallowed into the null sentinel. -/
theorem C6_update_user_empty_witness :
    (Users.update_user initialUsers "u-1" "Ann Lee" []
        (.error (.clientError
          ⟨"ValidationException", "Invalid UpdateExpression"⟩))).result
      = .ok none :=
  (C6_update_user_empty initialUsers "users" "u-1" "Ann Lee"
      (.clientError ⟨"ValidationException", "Invalid UpdateExpression"⟩)
      [] rfl).2.2.2.1

/-- C7: `add_user` writes a record consisting of exactly the two key
attributes `user_id` and `full_name` and nothing else; under the service
model the put needs no existence check and fully overwrites any record with
the same composite key, whatever the prior table contents; on success the
raw service response is returned, and on any error the null sentinel is
returned instead of raising. -/
theorem C7_add_user_contract (s : UsersState) (t u f : String)
    (r : RawResponse) (e : DbError) (td : TableData) (hs : s.table = some t) :
    addItem u f = [("user_id", u), ("full_name", f)]
    ∧ (Users.add_user s u f (.ok r)).calls = [.putItem t (addItem u f)]
    ∧ (Users.add_user s u f (.ok r)).result = .ok (some r)
    ∧ (Users.add_user s u f (.error e)).result = .ok none
    ∧ addItem u f ∈ putItemModel td (addItem u f)
    ∧ (∀ it ∈ putItemModel td (addItem u f),
        sameKey it (addItem u f) = true → it = addItem u f) := by
  obtain ⟨tb⟩ := s
  simp only [UsersState.mk.injEq] at hs
  subst hs
  refine ⟨rfl, rfl, rfl, rfl, by simp [putItemModel], ?_⟩
  intro it hit hkey
  rcases List.mem_append.1 hit with hl | hr
  · have h2 := (List.mem_filter.1 hl).2
    simp [hkey] at h2
  · simpa using hr

/-- C7 witness: a concrete successful put returns the raw response. -/
theorem C7_add_user_contract_witness :
    (Users.add_user initialUsers "u-1" "Ann Lee"
        (.ok [("HTTPStatusCode", "200")])).result
      = .ok (some [("HTTPStatusCode", "200")])
    ∧ (Users.add_user initialUsers "u-1" "Ann Lee"
        (.ok [("HTTPStatusCode", "200")])).calls
      = [.putItem "users" (addItem "u-1" "Ann Lee")] :=
  ⟨(C7_add_user_contract initialUsers "users" "u-1" "Ann Lee"
      [("HTTPStatusCode", "200")] (.localError "x") [] rfl).2.2.1,
    (C7_add_user_contract initialUsers "users" "u-1" "Ann Lee"
      [("HTTPStatusCode", "200")] (.localError "x") [] rfl).2.1⟩

/-- C8: `query_by_user_name` queries the secondary index `name-index` with
an equality condition on the attribute `name` — an attribute distinct from
`full_name` and absent from the item `add_user` writes; it returns the
matched items on success and the null sentinel on any error. -/
theorem C8_query_by_user_name_contract (s : UsersState) (t nm u f : String)
    (r : QueryResponse) (e : DbError) (hs : s.table = some t) :
    (Users.query_by_user_name s nm (.ok r)).calls
        = [.queryCall t (some "name-index") "name" nm]
    ∧ "name" ≠ "full_name"
    ∧ getAttr (addItem u f) "name" = none
    ∧ (Users.query_by_user_name s nm (.ok r)).result = .ok (some r.Items)
    ∧ (Users.query_by_user_name s nm (.error e)).result = .ok none := by
  obtain ⟨tb⟩ := s
  simp only [UsersState.mk.injEq] at hs
  subst hs
  exact ⟨rfl, by decide, rfl, rfl, rfl⟩

/-- C8 witness: a concrete query against the index returns its items. -/
theorem C8_query_by_user_name_contract_witness :
    (Users.query_by_user_name initialUsers "Ann Lee"
        (.ok ⟨[addItem "u-1" "Ann Lee"]⟩)).result
      = .ok (some [addItem "u-1" "Ann Lee"])
    ∧ (Users.query_by_user_name initialUsers "Ann Lee"
        (.ok ⟨[addItem "u-1" "Ann Lee"]⟩)).calls
      = [.queryCall "users" (some "name-index") "name" "Ann Lee"] :=
  ⟨(C8_query_by_user_name_contract initialUsers "users" "Ann Lee" "u" "f"
      ⟨[addItem "u-1" "Ann Lee"]⟩ (.localError "x") rfl).2.2.2.1,
    (C8_query_by_user_name_contract initialUsers "users" "Ann Lee" "u" "f"
      ⟨[addItem "u-1" "Ann Lee"]⟩ (.localError "x") rfl).1⟩

/-- C3: `update_user`, for every non-empty field mapping, builds an update
expression of the form `set ` followed by comma-separated `k=:k`
assignments and a value map sending `:k` to the supplied value of each
field, executes the update with the full composite key and
`ReturnValues="UPDATED_NEW"`, and returns exactly the post-update values of
the fields that were set — under the service model the response carries
precisely the supplied fields, and the stored item holds those values; on
any error the null sentinel is returned. -/
theorem C3_update_user_contract (s : UsersState) (t u f : String)
    (kwargs : AttrMap) (td : TableData) (r : UpdateResponse) (e : DbError)
    (hs : s.table = some t) (hne : kwargs ≠ [])
    (hnd : (kwargs.map Prod.fst).Nodup) :
    update_expression_string kwargs
        = "set " ++ String.intercalate ", "
            (kwargs.map fun kv => kv.1 ++ "=:" ++ kv.1)
    ∧ expression_attributes kwargs
        = kwargs.map (fun kv => (":" ++ kv.1, kv.2))
    ∧ (Users.update_user s u f kwargs (.ok r)).calls
        = [.updateItem t [("user_id", u), ("full_name", f)]
            (update_expression_string kwargs)
            (expression_attributes kwargs) "UPDATED_NEW"]
    ∧ (serviceUpdateItem td u f (assignPairs kwargs)
          (expression_attributes kwargs)).map Prod.snd = some kwargs
    ∧ (Users.update_user s u f kwargs (.ok ⟨kwargs⟩)).result
        = .ok (some kwargs)
    ∧ (∀ kv ∈ kwargs,
        getAttr (applyAssigns (baseItem td u f) kwargs) kv.1 = some kv.2)
    ∧ (Users.update_user s u f kwargs (.error e)).result = .ok none := by
  obtain ⟨tb⟩ := s
  simp only [UsersState.mk.injEq] at hs
  subst hs
  refine ⟨rfl, rfl, rfl, ?_, rfl, ?_, rfl⟩
  · have hae : (assignPairs kwargs).isEmpty = false := by
      cases kwargs with
      | nil => exact absurd rfl hne
      | cons a l => rfl
    simp only [serviceUpdateItem, hae, Bool.false_eq_true, if_false,
      resolve_assignPairs kwargs hnd]
    rfl
  · intro kv hkv
    exact getAttr_applyAssigns_mem kwargs (baseItem td u f) kv.1 kv.2 hnd hkv

/-- C3 witness: updating the single field `status` to `active` issues the
expression `set status=:status` with value map `:status ↦ active` and
returns exactly that field with its new value. -/
theorem C3_update_user_contract_witness :
    (Users.update_user initialUsers "u-1" "Ann Lee" [("status", "active")]
        (.ok ⟨[("status", "active")]⟩)).result
      = .ok (some [("status", "active")]) :=
  (C3_update_user_contract initialUsers "users" "u-1" "Ann Lee"
      [("status", "active")] [] ⟨[]⟩ (.localError "x") rfl
      (by decide) (by decide)).2.2.2.2.1

/-- C1 counterexample: `exists` is a table-management operation, yet on the
provider error `ResourceNotFoundException` it neither logs nor re-raises —
it returns false with no diagnostic output, so the claimed universal
log-and-re-raise policy for table-management operations fails. -/
theorem C1_policy_counterexample :
    (Users.exists initialUsers
        (.error (.clientError
          ⟨"ResourceNotFoundException", "Requested resource not found"⟩))).result
      = .ok false
    ∧ (Users.exists initialUsers
        (.error (.clientError
          ⟨"ResourceNotFoundException", "Requested resource not found"⟩))).output
      = [] :=
  ⟨rfl, rfl⟩

/-- C1 (amended): table-management operations log a provider error and
re-raise it, except that `exists` converts the provider error
`ResourceNotFoundException` into a plain false return without logging or
raising; record-level operations return a null/false sentinel instead of
raising, where the broad swallow covers provider and local errors alike for
`add_user`, `query_by_user_id`, `query_by_user_name` and `update_user`,
while `delete_user_by_id` swallows only provider errors and lets local
exceptions propagate. -/
theorem C1_bifurcated_policy (s : UsersState) (t u f msg m : String)
    (i : ErrorInfo) (kwargs : AttrMap)
    (hs : s.table = some t) (hi : i.code ≠ "ResourceNotFoundException") :
    ((Users.exists s (.error (.clientError i))).result
        = .error (.clientError i)
      ∧ (Users.exists s (.error (.clientError i))).output
          = [.logError i.code i.message])
    ∧ (Users.exists s (.error (.clientError
        ⟨"ResourceNotFoundException", msg⟩))).result = .ok false
    ∧ ((Users.list_tables s (.error (.clientError i))).result
        = .error (.clientError i)
      ∧ (Users.list_tables s (.error (.clientError i))).output
          = [.logError i.code i.message])
    ∧ ((Users.create_table s t (.error (.clientError i)) (.ok ())).result
        = .error (.clientError i)
      ∧ (Users.create_table s t (.error (.clientError i)) (.ok ())).output
          = [.logError i.code i.message])
    ∧ ((Users.delete_table s (.error (.clientError i))).result
        = .error (.clientError i)
      ∧ (Users.delete_table s (.error (.clientError i))).output
          = [.logError i.code i.message])
    ∧ (Users.add_user s u f (.error (.clientError i))).result = .ok none
    ∧ (Users.add_user s u f (.error (.localError m))).result = .ok none
    ∧ (Users.query_by_user_id s u (.error (.clientError i))).result = .ok none
    ∧ (Users.query_by_user_id s u (.error (.localError m))).result = .ok none
    ∧ (Users.query_by_user_name s u (.error (.clientError i))).result
        = .ok none
    ∧ (Users.query_by_user_name s u (.error (.localError m))).result
        = .ok none
    ∧ (Users.update_user s u f kwargs (.error (.clientError i))).result
        = .ok none
    ∧ (Users.update_user s u f kwargs (.error (.localError m))).result
        = .ok none
    ∧ (Users.delete_user_by_id s u f (.error (.clientError i))).result
        = .ok false
    ∧ (Users.delete_user_by_id s u f (.error (.localError m))).result
        = .error (.localError m) := by
  obtain ⟨tb⟩ := s
  simp only [UsersState.mk.injEq] at hs
  subst hs
  refine ⟨⟨?_, ?_⟩, ?_, ⟨rfl, rfl⟩, ⟨rfl, rfl⟩, ⟨rfl, rfl⟩, rfl, rfl, rfl,
    rfl, rfl, rfl, rfl, rfl, rfl, rfl⟩
  · simp [Users.exists, hi]
  · simp [Users.exists, hi]
  · simp [Users.exists]

/-- C1 witness: a concrete non-not-found provider error in `exists` is
re-raised under the amended policy. -/
theorem C1_bifurcated_policy_witness :
    (Users.exists initialUsers
        (.error (.clientError ⟨"ThrottlingException", "slow down"⟩))).result
      = .error (.clientError ⟨"ThrottlingException", "slow down"⟩) :=
  (C1_bifurcated_policy initialUsers "users" "u-1" "Ann Lee" "msg" "m"
      ⟨"ThrottlingException", "slow down"⟩ [] rfl (by decide)).1.1

/-- C2 counterexample: with no table bound — the state `delete_table`
leaves behind — `delete_user_by_id` hits a local AttributeError that its
`ClientError`-only handler does not catch, so the exception propagates
instead of being converted to the false sentinel. -/
theorem C2_delete_user_counterexample :
    (Users.delete_user_by_id ⟨none⟩ "u-1" "Ann Lee" (.ok ())).result
        = .error (.localError (noTableMessage "delete_item"))
    ∧ (Users.delete_user_by_id ⟨none⟩ "u-1" "Ann Lee" (.ok ())).result
        ≠ .ok false :=
  ⟨rfl, by simp [Users.delete_user_by_id]⟩

/-- C2 (amended): `delete_user_by_id` returns true on success; a provider
error (`ClientError`) is caught, printed, and converted to the false
sentinel; a non-provider local exception is not caught and propagates to
the caller. -/
theorem C2_delete_user_policy (s : UsersState) (t u f m : String)
    (i : ErrorInfo) (hs : s.table = some t) :
    (Users.delete_user_by_id s u f (.ok ())).result = .ok true
    ∧ (Users.delete_user_by_id s u f (.error (.clientError i))).result
        = .ok false
    ∧ (Users.delete_user_by_id s u f (.error (.clientError i))).output
        = [.printOut ("Error: " ++ (DbError.clientError i).tracebackText)]
    ∧ (Users.delete_user_by_id s u f (.error (.localError m))).result
        = .error (.localError m) := by
  obtain ⟨tb⟩ := s
  simp only [UsersState.mk.injEq] at hs
  subst hs
  exact ⟨rfl, rfl, rfl, rfl⟩

/-- C2 witness: a concrete successful delete returns true, and a concrete
provider error is converted to false. -/
theorem C2_delete_user_policy_witness :
    (Users.delete_user_by_id initialUsers "u-1" "Ann Lee" (.ok ())).result
        = .ok true
    ∧ (Users.delete_user_by_id initialUsers "u-1" "Ann Lee"
        (.error (.clientError ⟨"InternalServerError", "oops"⟩))).result
        = .ok false :=
  ⟨(C2_delete_user_policy initialUsers "users" "u-1" "Ann Lee" "m"
      ⟨"InternalServerError", "oops"⟩ rfl).1,
    (C2_delete_user_policy initialUsers "users" "u-1" "Ann Lee" "m"
      ⟨"InternalServerError", "oops"⟩ rfl).2.1⟩

/-- C9 counterexample: with a record ("u1", "Alice") already stored, the
pair ("u1", "Bob") is not previously present and `add_user` succeeds, yet
`query_by_user_id "u1"` then returns two records, not exactly one. -/
theorem C9_add_query_counterexample :
    (Users.add_user initialUsers "u1" "Bob" (.ok [])).result = .ok (some [])
    ∧ addItem "u1" "Bob" ∉ [addItem "u1" "Alice"]
    ∧ (Users.query_by_user_id initialUsers "u1"
        (.ok ⟨queryByPartition
          (putItemModel [addItem "u1" "Alice"] (addItem "u1" "Bob"))
          "u1"⟩)).result
      = .ok (some [addItem "u1" "Alice", addItem "u1" "Bob"]) :=
  ⟨rfl, by decide, rfl⟩

/-- C9 (amended): for every `user_id` with no record previously present
under that partition key, `add_user(user_id, full_name)` followed by
`query_by_user_id(user_id)` returns a sequence containing exactly one
record, whose `user_id` and `full_name` equal the inserted pair. -/
theorem C9_add_then_query (s : UsersState) (t u f : String) (td : TableData)
    (r : RawResponse) (hs : s.table = some t)
    (hnone : ∀ it ∈ td, getAttr it "user_id" ≠ some u) :
    (Users.add_user s u f (.ok r)).result = .ok (some r)
    ∧ (Users.query_by_user_id s u
        (.ok ⟨queryByPartition (putItemModel td (addItem u f)) u⟩)).result
      = .ok (some [addItem u f])
    ∧ getAttr (addItem u f) "user_id" = some u
    ∧ getAttr (addItem u f) "full_name" = some f := by
  obtain ⟨tb⟩ := s
  simp only [UsersState.mk.injEq] at hs
  subst hs
  refine ⟨rfl, ?_, rfl, getAttr_addItem_full_name u f⟩
  rw [queryByPartition_putItemModel td u f hnone]
  rfl

/-- C9 witness: inserting into an empty table and querying the partition
key returns exactly the inserted record. -/
theorem C9_add_then_query_witness :
    (Users.query_by_user_id initialUsers "u1"
        (.ok ⟨queryByPartition (putItemModel [] (addItem "u1" "Bob"))
          "u1"⟩)).result
      = .ok (some [addItem "u1" "Bob"]) :=
  (C9_add_then_query initialUsers "users" "u1" "Bob" [] [] rfl
      (fun it hit => absurd hit (List.not_mem_nil it))).2.1

end AwsQuickStart
